import Mathlib

/-!
Shallow embedding of the resmoke test-execution harness
(`buildscripts/resmokelib/testing/`): the report data model (`report.py`),
the test-case run protocol (`testcases/interface.py`), the hook protocol
(`hooks/interface.py`), the job execution loop (`job.py`) and the
executor's fixture lifecycle (`executor.py`).

Conventions of the embedding:
* Python `None`-able fields become `Option`.
* Wall-clock instants (`time.time()` floats) are abstracted as `Int`;
  every operation that reads the clock takes the instant as an explicit
  argument.
* Statuses are the literal strings of `report.py`.
* In-place mutation becomes explicit state passing: a Python method that
  mutates `self` is a Lean function returning the updated value, and
  `TestReportInfo.combine`, which mutates the reports it is given,
  returns the combined report together with the list of mutated inputs.
-/

namespace Resmoke

/-- Constant of `report.py`: `STATUS_SUCCESS = "pass"`. -/
def STATUS_SUCCESS : String := "pass"

/-- Constant of `report.py`: `STATUS_FAIL = "fail"`. -/
def STATUS_FAIL : String := "fail"

/-- Constant of `report.py`: `STATUS_ERROR = "error"`. -/
def STATUS_ERROR : String := "error"

/-- Constant of `report.py`: `STATUS_TIMEOUT = "timeout"`. -/
def STATUS_TIMEOUT : String := "timeout"

/-- Constant of `report.py`: `RETURN_CODE_TIMEOUT = -2`. -/
def RETURN_CODE_TIMEOUT : Int := -2

/-- Constant of `report.py`: `EVG_STATUS_SUCCESS = "pass"`. -/
def EVG_STATUS_SUCCESS : String := "pass"

/-- Constant of `report.py`: `EVG_STATUS_FAIL = "fail"`. -/
def EVG_STATUS_FAIL : String := "fail"

/-- Embeds `report.py` `_TestInfo`: holder for one test's status and timing
information.  All fields are initialised to `None` in `__init__` except
`test_id` and `dynamic`. -/
structure TestInfo where
  test_id : String
  dynamic : Bool
  start_time : Option Int := none
  end_time : Option Int := none
  status : Option String := none
  evergreen_status : Option String := none
  return_code : Option Int := none
  url_endpoint : Option String := none
  deriving Repr, DecidableEq

/-- Embeds `report.py` `TestReportInfo.__init__`: a report for multiple tests. -/
structure TestReportInfo where
  test_infos : List TestInfo := []
  num_dynamic : Nat := 0
  num_succeeded : Nat := 0
  num_failed : Nat := 0
  num_errored : Nat := 0
  num_interrupted : Nat := 0
  deriving Repr, DecidableEq

namespace TestReportInfo

/-- Embeds `report.py` `TestReportInfo._end_test_info`: ends the given test info
if it is still ongoing by marking it as timed out. -/
def endTestInfo (test_info : TestInfo) (end_time : Int) : TestInfo :=
  let test_info :=
    if test_info.status = none ∨ test_info.return_code = none then
      { test_info with
        status := some STATUS_TIMEOUT
        evergreen_status := some EVG_STATUS_FAIL
        return_code := some RETURN_CODE_TIMEOUT }
    else test_info
  if test_info.end_time = none then
    { test_info with end_time := some end_time }
  else test_info

/-- Embeds `report.py` `TestReportInfo.end_report`: ends this report by marking
all the ongoing tests as timed out. -/
def end_report (report : TestReportInfo) (end_time : Int) : TestReportInfo :=
  { report with
    test_infos := report.test_infos.map (fun ti => endTestInfo ti end_time) }

/-- Embeds `report.py` `TestReportInfo.get_by_status`: all the test infos with
the specified status. -/
def get_by_status (report : TestReportInfo) (status : String) : List TestInfo :=
  report.test_infos.filter (fun info => info.status = some status)

/-- Embeds `report.py` `TestReportInfo.combine`: combines the given report infos
into one.  The Python method mutates each input via `info.end_report(...)`
before concatenating; the first component is the combined report and the
second component is the list of inputs after that mutation.
`combining_time` stands for the `time.time()` call inside `combine`. -/
def combine (report_infos : List TestReportInfo) (combining_time : Int) :
    TestReportInfo × List TestReportInfo :=
  let ended := report_infos.map (fun info => info.end_report combining_time)
  let combined : TestReportInfo :=
    { test_infos := (ended.map test_infos).flatten
      num_dynamic := (ended.map num_dynamic).sum }
  -- Recompute number of success, failures, and errors.
  let combined :=
    { combined with
      num_succeeded := (combined.get_by_status STATUS_SUCCESS).length
      num_failed := (combined.get_by_status STATUS_FAIL).length
      num_errored := (combined.get_by_status STATUS_ERROR).length
      num_interrupted := (combined.get_by_status STATUS_TIMEOUT).length }
  (combined, ended)

/-- Embeds `report.py` `TestReportInfo.was_successful`. -/
def was_successful (report : TestReportInfo) : Bool :=
  report.num_failed = 0 ∧ report.num_errored = 0 ∧ report.num_interrupted = 0

/-- Embeds `report.py` `TestReportInfo._recompute_nums`: recomputes the internal
counters from a scan of `test_infos`. -/
def recompute_nums (report : TestReportInfo) : TestReportInfo :=
  { report with
    num_succeeded := (report.get_by_status STATUS_SUCCESS).length
    num_failed := (report.get_by_status STATUS_FAIL).length
    num_errored := (report.get_by_status STATUS_ERROR).length
    num_interrupted := (report.get_by_status STATUS_TIMEOUT).length }

end TestReportInfo

/-- One entry of the `"results"` array produced by
`TestReportInfo.as_dict`: keys `test_file`, `status`, `exit_code`,
`start`, `end`, `elapsed` and the optional `url`/`url_raw` pair
(`url_raw` is always `url + "?raw=1"`, so only `url` is carried). -/
structure ResultEntry where
  test_file : String
  status : Option String
  exit_code : Option Int
  start : Option Int
  endv : Option Int
  elapsed : Int
  url : Option String
  deriving Repr, DecidableEq

/-- The dictionary produced by `TestReportInfo.as_dict`: a `"results"`
array and a `"failures"` count. -/
structure ReportDict where
  results : List ResultEntry
  failures : Nat
  deriving Repr, DecidableEq

namespace TestReportInfo

/-- One iteration of the `for test_info in self.test_infos` loop of
`as_dict`: the `"results"` entry built for one test info.  The Python
code computes `"elapsed": test_info.end_time - test_info.start_time`,
which raises `TypeError` when either time is unset, so the entry is
`none` in that case. -/
def as_dict_entry (test_info : TestInfo) : Option ResultEntry := do
  let endv ← test_info.end_time
  let start ← test_info.start_time
  pure { test_file := test_info.test_id
         status := test_info.evergreen_status
         exit_code := test_info.return_code
         start := some start
         endv := some endv
         elapsed := endv - start
         url := test_info.url_endpoint }

/-- The `results` array of `as_dict`, built entry by entry. -/
def as_dict_results : List TestInfo → Option (List ResultEntry)
  | [] => some []
  | test_info :: rest => do
    let result ← as_dict_entry test_info
    let results ← as_dict_results rest
    pure (result :: results)

/-- Embeds `report.py` `TestReportInfo.as_dict`: the test result information as
a dictionary, used to create the report.json file. -/
def as_dict (report : TestReportInfo) : Option ReportDict := do
  let results ← as_dict_results report.test_infos
  pure { results := results
         failures := report.num_failed + report.num_errored + report.num_interrupted }

/-- One entry built by the `for result in report_dict["results"]` loop of
`from_dict`: by convention, dynamic tests are named
`"<basename>:<hook name>"`, so the dynamic flag is inferred from the
presence of a colon in `test_file`; both `status` and `evergreen_status`
are taken from the serialized `status` column. -/
def from_dict_entry (result : ResultEntry) : TestInfo :=
  { test_id := result.test_file
    dynamic := result.test_file.contains ':'
    url_endpoint := result.url
    status := result.status
    evergreen_status := result.status
    return_code := result.exit_code
    start_time := result.start
    end_time := result.endv }

/-- One iteration of the `from_dict` loop: appends the entry and bumps
`num_dynamic` when it is dynamic. -/
def from_dict_step (report : TestReportInfo) (result : ResultEntry) : TestReportInfo :=
  { report with
    test_infos := report.test_infos ++ [from_dict_entry result]
    num_dynamic :=
      report.num_dynamic + (if (from_dict_entry result).dynamic then 1 else 0) }

/-- Embeds `report.py` `TestReportInfo.from_dict`: the test report instance
copied from a dict generated by `as_dict`. -/
def from_dict (report_dict : ReportDict) : TestReportInfo :=
  let report := report_dict.results.foldl from_dict_step {}
  -- Update cached values for number of successful and failed tests.
  report.recompute_nums

end TestReportInfo

/-- The exceptions that flow through the harness: the typed errors of
`errors.py` (`TestFailure`, `ServerFailure`, `StopExecution`,
`FixtureError`, `UserInterrupt`), Python built-ins raised by the embedded
code (`KeyboardInterrupt`, `IOError`, `RuntimeError`, `ValueError`,
`AssertionError`, `TypeError`) and a constructor standing for any other
unclassified exception. -/
inductive Exc
  | testFailure
  | serverFailure
  | stopExecution
  | fixtureError
  | userInterrupt
  | keyboardInterrupt
  | ioError
  | runtimeError
  | valueError
  | assertionError
  | typeError
  | otherExc
  deriving Repr, DecidableEq

namespace TestReportInfo

/-- Embeds `report.py` `TestReportInfo.get_by_id`: retrieves the test info for
the given test id, searching the list backwards to find the most recently
started test with that id.  `none` models the `ValueError` raised when
the id is absent. -/
def get_by_id? (report : TestReportInfo) (test_id : String) : Option TestInfo :=
  report.test_infos.reverse.find? (fun ti => ti.test_id = test_id)

/-- Replaces the first entry with the given id. Helper for
`updateLastById`. -/
def updateFirstById : List TestInfo → String → (TestInfo → TestInfo) → List TestInfo
  | [], _, _ => []
  | ti :: rest, test_id, f =>
    if ti.test_id = test_id then f ti :: rest
    else ti :: updateFirstById rest test_id f

/-- In-place mutation of the entry found by `get_by_id` becomes: replace
the last entry carrying the given id. -/
def updateLastById (infos : List TestInfo) (test_id : String)
    (f : TestInfo → TestInfo) : List TestInfo :=
  (updateFirstById infos.reverse test_id f).reverse

/-- Embeds `report.py` `TestReportInfo.record_test_start`: appends a fresh
`_TestInfo` with its `start_time` set to the current instant (`now`
stands for the `time.time()` call). -/
def record_test_start (report : TestReportInfo) (test_id : String)
    (dynamic : Bool) (now : Int) : TestReportInfo :=
  let test_info : TestInfo := { test_id := test_id, dynamic := dynamic, start_time := some now }
  { report with
    test_infos := report.test_infos ++ [test_info]
    num_dynamic := report.num_dynamic + (if dynamic then 1 else 0) }

/-- Embeds `report.py` `TestReportInfo.record_test_end`: records the end of a
test and returns the time taken.  Errors: `ValueError` when the id is
absent, `AssertionError` when the test was already marked as stopped,
`TypeError` when `start_time` was never set (the `end_time - start_time`
subtraction). -/
def record_test_end (report : TestReportInfo) (test_id : String) (now : Int) :
    Except Exc (TestReportInfo × Int) :=
  match report.get_by_id? test_id with
  | none => .error .valueError
  | some ti =>
    if ti.end_time ≠ none then .error .assertionError
    else
      match ti.start_time with
      | none => .error .typeError
      | some st =>
        .ok ({ report with
               test_infos := updateLastById report.test_infos test_id
                 (fun t => { t with end_time := some now }) },
             now - st)

/-- Embeds `report.py` `TestReportInfo.record_test_success`. -/
def record_test_success (report : TestReportInfo) (test_id : String)
    (return_code : Option Int) : Except Exc TestReportInfo :=
  match report.get_by_id? test_id with
  | none => .error .valueError
  | some _ =>
    .ok { report with
          test_infos := updateLastById report.test_infos test_id
            (fun ti => { ti with
                         status := some STATUS_SUCCESS
                         evergreen_status := some EVG_STATUS_SUCCESS
                         return_code := return_code })
          num_succeeded := report.num_succeeded + 1 }

/-- Embeds `report.py` `TestReportInfo.record_test_error`. -/
def record_test_error (report : TestReportInfo) (test_id : String)
    (return_code : Option Int) : Except Exc TestReportInfo :=
  match report.get_by_id? test_id with
  | none => .error .valueError
  | some _ =>
    .ok { report with
          test_infos := updateLastById report.test_infos test_id
            (fun ti => { ti with
                         status := some STATUS_ERROR
                         evergreen_status := some EVG_STATUS_FAIL
                         return_code := return_code })
          num_errored := report.num_errored + 1 }

/-- Embeds `report.py` `TestReportInfo.record_test_failure`: dynamic tests are
used for data consistency checks, so their failures are never silenced;
other tests get the configured `report_failure_status`. -/
def record_test_failure (report : TestReportInfo) (test_id : String)
    (return_code : Option Int) (report_failure_status : String) :
    Except Exc TestReportInfo :=
  match report.get_by_id? test_id with
  | none => .error .valueError
  | some _ =>
    .ok { report with
          test_infos := updateLastById report.test_infos test_id
            (fun ti => { ti with
                         status := some STATUS_FAIL
                         evergreen_status :=
                           some (if ti.dynamic then EVG_STATUS_FAIL else report_failure_status)
                         return_code := return_code })
          num_failed := report.num_failed + 1 }

/-- Embeds `report.py` `TestReportInfo.update_test_failure`: updates a previous
test result and changes its status to failed; asserts that the test was
already stopped. -/
def update_test_failure (report : TestReportInfo) (test_id : String)
    (return_code : Int) (report_failure_status : String) :
    Except Exc TestReportInfo :=
  match report.get_by_id? test_id with
  | none => .error .valueError
  | some ti =>
    if ti.end_time = none then .error .assertionError
    else
      .ok ({ report with
             test_infos := updateLastById report.test_infos test_id
               (fun t => { t with
                           status := some STATUS_FAIL
                           evergreen_status :=
                             some (if t.dynamic then EVG_STATUS_FAIL else report_failure_status)
                           return_code := some return_code }) }).recompute_nums

/-- Embeds `report.py` `TestReportInfo.update_test_error`: updates a previous
test result and changes its status to error; asserts that the test was
already stopped. -/
def update_test_error (report : TestReportInfo) (test_id : String)
    (return_code : Int) : Except Exc TestReportInfo :=
  match report.get_by_id? test_id with
  | none => .error .valueError
  | some ti =>
    if ti.end_time = none then .error .assertionError
    else
      .ok ({ report with
             test_infos := updateLastById report.test_infos test_id
               (fun t => { t with
                           status := some STATUS_ERROR
                           evergreen_status := some EVG_STATUS_FAIL
                           return_code := some return_code }) }).recompute_nums

end TestReportInfo

/-- Embeds `report.py` `TestReport`: records test status and timing information
for one job.  The lock only serialises concurrent access and is dropped
from the sequential embedding; the state is the wrapped `TestReportInfo`
plus the configured failure status. -/
structure TestReport where
  failure_status : String
  info : TestReportInfo := {}
  deriving Repr, DecidableEq

namespace TestReport

/-- Embeds `report.py` `TestReport.record_test_start`: records the start of a
test and then sets `url_endpoint` on the created entry. -/
def record_test_start (report : TestReport) (test_id : String)
    (url_endpoint : Option String) (dynamic : Bool) (now : Int) : TestReport :=
  let info := report.info.record_test_start test_id dynamic now
  { report with
    info := { info with
              test_infos := TestReportInfo.updateLastById info.test_infos test_id
                (fun ti => { ti with url_endpoint := url_endpoint }) } }

/-- Embeds `report.py` `TestReport.record_test_end`. -/
def record_test_end (report : TestReport) (test_id : String) (now : Int) :
    Except Exc (TestReport × Int) := do
  let (info, time_taken) ← report.info.record_test_end test_id now
  pure ({ report with info := info }, time_taken)

/-- Embeds `report.py` `TestReport.record_test_success`. -/
def record_test_success (report : TestReport) (test_id : String)
    (return_code : Option Int) : Except Exc TestReport := do
  pure { report with info := (← report.info.record_test_success test_id return_code) }

/-- Embeds `report.py` `TestReport.record_test_failure`: passes the configured
failure status down. -/
def record_test_failure (report : TestReport) (test_id : String)
    (return_code : Option Int) : Except Exc TestReport := do
  pure { report with
         info := (← report.info.record_test_failure test_id return_code report.failure_status) }

/-- Embeds `report.py` `TestReport.record_test_error`. -/
def record_test_error (report : TestReport) (test_id : String)
    (return_code : Option Int) : Except Exc TestReport := do
  pure { report with info := (← report.info.record_test_error test_id return_code) }

/-- Embeds `report.py` `TestReport.update_test_failure` (default
`return_code=1`). -/
def update_test_failure (report : TestReport) (test_id : String)
    (return_code : Int) : Except Exc TestReport := do
  pure { report with
         info := (← report.info.update_test_failure test_id return_code report.failure_status) }

/-- Embeds `report.py` `TestReport.update_test_error` (fixed `return_code=2`). -/
def update_test_error (report : TestReport) (test_id : String) :
    Except Exc TestReport := do
  pure { report with info := (← report.info.update_test_error test_id 2) }

/-- Embeds `report.py` `TestReport.was_successful`. -/
def was_successful (report : TestReport) : Bool :=
  report.info.was_successful

end TestReport

/-! ### `testcases/interface.py` -/

/-- Embeds `os.path.basename` (posix): the substring after the last `/`
(`p[p.rfind('/') + 1:]`), i.e. the longest suffix free of separators. -/
def pyBasename (path : String) : String :=
  String.mk ((path.data.reverse.takeWhile (fun c => c ≠ '/')).reverse)

/-- Index of the last occurrence of `c` in `cs`, or `-1` (the value
`str.rfind` returns when the character is absent). -/
def rfindChar (cs : List Char) (c : Char) : Int :=
  match cs.reverse.findIdx? (fun x => x = c) with
  | none => -1
  | some i => (cs.length : Int) - 1 - (i : Int)

/-- The root component of `os.path.splitext` (posix): splits at the last
dot that comes after the last separator, provided the base name has at
least one non-dot character before that dot (so names made only of
leading dots, like `".bashrc"`, are not split). -/
def splitextRoot (path : String) : String :=
  let cs := path.data
  let sepIndex := rfindChar cs '/'
  let dotIndex := rfindChar cs '.'
  if sepIndex < dotIndex then
    if (List.range cs.length).any
        (fun k => decide (sepIndex < (k : Int)) && decide ((k : Int) < dotIndex)
          && decide (cs.get? k ≠ some '.')) then
      String.mk (cs.take dotIndex.toNat)
    else path
  else path

/-- The outcome of `run_test`, which is abstract in
`testcases/interface.py` (`raise NotImplementedError`) and supplied by
each concrete test kind: it returns normally, raises a declared
`TestFailure`, raises `KeyboardInterrupt`, or raises some other
exception. -/
inductive RunTestOutcome
  | ok
  | testFailure
  | keyboardInterrupt
  | otherExc
  deriving Repr, DecidableEq

/-- Embeds `testcases/interface.py` `TestCase`: kind, name, dynamic flag, bound
fixture (tracked here only through `is_configured`), return code and
captured exception.  The two `run_test_*` fields are the abstract
behavior of the subclass-provided `run_test`: how it terminates and the
value it leaves in `self.return_code`. -/
structure TestCase where
  test_kind : String
  test_name : String
  dynamic : Bool := false
  return_code : Option Int := none
  exception : Option Exc := none
  is_configured : Bool := false
  run_test_outcome : RunTestOutcome := .ok
  run_test_return_code : Option Int := none
  deriving Repr, DecidableEq

namespace TestCase

/-- Embeds `testcases/interface.py` `TestCase.id`. -/
def id (test : TestCase) : String := test.test_name

/-- Embeds `testcases/interface.py` `TestCase.basename`. -/
def basename (test : TestCase) : String := pyBasename test.test_name

/-- Embeds `testcases/interface.py` `TestCase.short_name`: the basename of the
test without the file extension. -/
def short_name (test : TestCase) : String := splitextRoot test.basename

/-- Embeds `testcases/interface.py` `TestCase.configure`: binds the fixture
exactly once; a second call raises `RuntimeError`. -/
def configure (test : TestCase) : Except Exc TestCase :=
  if test.is_configured then .error .runtimeError
  else .ok { test with is_configured := true }

/-- Embeds `testcases/interface.py` `TestCase.reset`: clears the return code and
the captured exception. -/
def reset (test : TestCase) : TestCase :=
  { test with return_code := none, exception := none }

/-- Embeds `testcases/interface.py` `TestCase.run`: records the start in the
report, executes `run_test`, classifies the outcome per the
`try/except/finally`, and records the stop in the `finally` block.

The result is the updated test case, the updated report and the
exception escaping `run` (`none` when `run` returns normally).
`now_start`/`now_end` stand for the wall-clock instants of the start and
stop recording; `url_endpoint` is the test logger's URL. -/
def run (test : TestCase) (report : TestReport) (url_endpoint : Option String)
    (now_start now_end : Int) : Except Exc (TestCase × TestReport × Option Exc) := do
  let report := report.record_test_start test.id url_endpoint test.dynamic now_start
  -- `run_test` runs and leaves its return code in `self.return_code`.
  let test := { test with return_code := test.run_test_return_code }
  let (test, report, raised) ←
    match test.run_test_outcome with
    | .ok => do
        let report ← report.record_test_success test.id test.return_code
        pure (test, report, (none : Option Exc))
    | .testFailure => do
        let report ← report.record_test_failure test.id test.return_code
        pure ({ test with exception := some .testFailure }, report, (none : Option Exc))
    | .keyboardInterrupt =>
        -- Re-raised; no outcome is recorded, but the `finally` below runs.
        pure (test, report, (some .keyboardInterrupt : Option Exc))
    | .otherExc => do
        -- The exception is stored in `self.exception`, not re-raised.
        let report ← report.record_test_error test.id test.return_code
        pure ({ test with exception := some .otherExc }, report, (none : Option Exc))
  let (report, _time_taken) ← report.record_test_end test.id now_end
  pure (test, report, raised)

end TestCase

/-! ### `hooks/interface.py` -/

/-- Embeds `hooks/interface.py` `TestCaseHook`: owns a reusable hook test case.
`class_name` stands for `self.__class__.__name__` of the concrete hook
subclass; `should_run_after_test` is the (boolean) result of the
subclass-overridable `_should_run_after_test`, which defaults to
always-true in the base class. -/
structure TestCaseHook where
  class_name : String
  description : String
  hook_test_case : TestCase
  should_run_after_test : Bool := true
  deriving Repr, DecidableEq

namespace TestCaseHook

/-- Embeds `hooks/interface.py` `TestCaseHook.after_test`: optionally skips (via
`_should_run_after_test`), else resets the hook test case, renames it to
`"<base test short name>:<hook class name>"`, runs it through
`TestCase.run` against the given report, and raises `StopExecution` when
its return code is non-zero (in Python, `None != 0` also holds, so an
unset return code raises too).

Returns the updated hook, the updated report, and the exception raised
by `after_test` (`none` when it returns normally). -/
def after_test (hook : TestCaseHook) (test : TestCase) (report : TestReport)
    (url_endpoint : Option String) (now_start now_end : Int) :
    Except Exc (TestCaseHook × TestReport × Option Exc) := do
  if !hook.should_run_after_test then
    pure (hook, report, none)
  else
    let htc := hook.hook_test_case.reset
    let test_name := test.short_name ++ ":" ++ hook.class_name
    let htc := { htc with test_name := test_name }
    let (htc, report, raised) ← htc.run report url_endpoint now_start now_end
    let hook := { hook with hook_test_case := htc }
    match raised with
    | some e => pure (hook, report, some e)
    | none =>
      if htc.return_code ≠ some 0 then
        pure (hook, report, some .stopExecution)
      else
        pure (hook, report, none)

end TestCaseHook

/-! ### `job.py` -/

/-- A hook as the `Job` sees it: the protocol methods `before_test` and
`after_test` are abstract in `hooks/interface.py` (the base class bodies
are `pass`), so their behavior is modelled as the exception each call
raises (`none` = the call returns normally). -/
structure JobHook where
  name : String
  before_outcome : Option Exc := none
  after_outcome : Option Exc := none
  deriving Repr, DecidableEq

/-- Embeds `job.py` `suite_options`: the fail-fast policy is all `_execute_test`
reads from it. -/
structure SuiteOptions where
  fail_fast : Bool
  deriving Repr, DecidableEq

/-- The fixture as the `Job` and the executor see it: the results of the
liveness probe `is_running()`, of `setup()` and of `await_ready()`
(`true` = the call succeeds, `false` = it raises `FixtureError`). -/
structure Fixture where
  is_running : Bool := true
  setup_ok : Bool := true
  ready_ok : Bool := true
  deriving Repr, DecidableEq

/-- Fires `before_test` (or `after_test`) on each hook in list order,
stopping at the first raise: returns the names of the invoked hooks in
invocation order and the exception of the first failing hook. -/
def fireHooks : List JobHook → (JobHook → Option Exc) → List String × Option Exc
  | [], _ => ([], none)
  | hook :: rest, outcome =>
    match outcome hook with
    | some e => ([hook.name], some e)
    | none =>
      let (fired, e) := fireHooks rest outcome
      (hook.name :: fired, e)

namespace Job

/-- Embeds `job.py` `Job._fail_test`: records a not-yet-started test as a
failure with the provided return code — `startTest`, set
`test.return_code`, `addFailure`, `stopTest` (which `report.py` provides
as `record_test_start`, `record_test_failure` and `record_test_end`). -/
def fail_test (test : TestCase) (report : TestReport) (return_code : Int)
    (now_start now_end : Int) : Except Exc (TestCase × TestReport) := do
  let report := report.record_test_start test.id none false now_start
  let test := { test with return_code := some return_code }
  let report ← report.record_test_failure test.id test.return_code
  let (report, _) ← report.record_test_end test.id now_end
  pure (test, report)

/-- Embeds `job.py` `Job._run_hooks_before_tests`: runs `before_test` on each
hook in order; `StopExecution` is re-raised, `ServerFailure` records the
test as failed (return code 2) and raises `StopExecution`, `TestFailure`
records the test as failed (return code 1) and raises `StopExecution`
only under fail-fast, and any other exception records the test as
errored (`startTest`/`addError`/`stopTest`) and is re-raised.

Returns the updated test and report, the names of the invoked hooks in
order, and the exception escaping the method. -/
def run_hooks_before_tests (hooks : List JobHook) (suite_options : SuiteOptions)
    (test : TestCase) (report : TestReport) (now_start now_end : Int) :
    Except Exc (TestCase × TestReport × List String × Option Exc) := do
  let (fired, exc) := fireHooks hooks (fun h => h.before_outcome)
  match exc with
  | none => pure (test, report, fired, none)
  | some .stopExecution => pure (test, report, fired, some .stopExecution)
  | some .serverFailure => do
      let (test, report) ← fail_test test report 2 now_start now_end
      pure (test, report, fired, some .stopExecution)
  | some .testFailure => do
      let (test, report) ← fail_test test report 1 now_start now_end
      if suite_options.fail_fast then
        pure (test, report, fired, some .stopExecution)
      else
        pure (test, report, fired, none)
  | some e => do
      -- Record the `before_test()` error in the report, then re-raise.
      let report := report.record_test_start test.id none false now_start
      let report ← report.record_test_error test.id test.return_code
      let (report, _) ← report.record_test_end test.id now_end
      pure (test, report, fired, some e)

/-- Embeds `job.py` `Job._run_hooks_after_tests`: runs `after_test` on each hook
in order; `StopExecution` is re-raised, `ServerFailure` calls
`setFailure(test, return_code=2)` and raises `StopExecution`,
`TestFailure` calls `setFailure(test, return_code=1)` and raises
`StopExecution` only under fail-fast, and any other exception calls
`setError(test)` and is re-raised.  (`setFailure`/`setError` are the
operations `report.py` provides as `update_test_failure` and
`update_test_error`: they change the outcome of the already-stopped
test.) -/
def run_hooks_after_tests (hooks : List JobHook) (suite_options : SuiteOptions)
    (test : TestCase) (report : TestReport) :
    Except Exc (TestReport × List String × Option Exc) := do
  let (fired, exc) := fireHooks hooks (fun h => h.after_outcome)
  match exc with
  | none => pure (report, fired, none)
  | some .stopExecution => pure (report, fired, some .stopExecution)
  | some .serverFailure => do
      let report ← report.update_test_failure test.id 2
      pure (report, fired, some .stopExecution)
  | some .testFailure => do
      let report ← report.update_test_failure test.id 1
      if suite_options.fail_fast then
        pure (report, fired, some .stopExecution)
      else
        pure (report, fired, none)
  | some e => do
      let report ← report.update_test_error test.id
      pure (report, fired, some e)

/-- The observable result of one `Job._execute_test` call: final test and
report states, the hooks invoked at the before and after points, and the
exception escaping the method (`none` = it returned normally). -/
structure ExecuteTestResult where
  test : TestCase
  report : TestReport
  fired_before : List String := []
  fired_after : List String := []
  raised : Option Exc := none
  deriving Repr, DecidableEq

/-- Embeds `job.py` `Job._execute_test`: configures the test against the job's
fixture, runs the hooks' `before_test`, runs the test, applies the
fail-fast check, applies the fixture liveness check (`setFailure` with
return code 2 and an unconditional `StopExecution` when the fixture is no
longer running), then runs the hooks' `after_test`.

`now_start`/`now_end` stand for the wall-clock instants of the report
recordings performed during the call. -/
def execute_test (fixture : Fixture) (hooks : List JobHook)
    (suite_options : SuiteOptions) (test : TestCase) (report : TestReport)
    (url_endpoint : Option String) (now_start now_end : Int) :
    Except Exc ExecuteTestResult := do
  let test ← test.configure
  let (test, report, fired_before, exc) ←
    run_hooks_before_tests hooks suite_options test report now_start now_end
  match exc with
  | some e => pure { test := test, report := report, fired_before := fired_before, raised := some e }
  | none => do
    let (test, report, raised) ← test.run report url_endpoint now_start now_end
    match raised with
    | some e =>
      pure { test := test, report := report, fired_before := fired_before, raised := some e }
    | none =>
      if suite_options.fail_fast && !report.was_successful then
        pure { test := test, report := report, fired_before := fired_before,
               raised := some .stopExecution }
      else if !fixture.is_running then do
        -- Always fail fast if the fixture fails.
        let report ← report.update_test_failure test.id 2
        pure { test := test, report := report, fired_before := fired_before,
               raised := some .stopExecution }
      else do
        let (report, fired_after, exc) ←
          run_hooks_after_tests hooks suite_options test report
        pure { test := test, report := report, fired_before := fired_before,
               fired_after := fired_after, raised := exc }

end Job

/-! ### `executor.py` and the suite-level report -/

/-- The suite-level marks that `TestSuiteExecutor.run` places on the
`SuiteReport` (`report.py` `SuiteReport` stores `interrupted` and
`return_code`; the additional `suite_error` flag carries the
spec-modelled `set_error` mark, see below). -/
structure SuiteReportState where
  interrupted : Bool := false
  return_code : Int := 0
  suite_error : Bool := false
  deriving Repr, DecidableEq

namespace SuiteReportState

/-- Embeds `report.py` `SuiteReport.set_interrupted`: marks the suite as
interrupted with the given return code. -/
def set_interrupted (sr : SuiteReportState) (return_code : Int) : SuiteReportState :=
  { sr with interrupted := true, return_code := return_code }

/-- Modelled from the spec: `SuiteReport.set_error`, which
`TestSuiteExecutor.run` calls but `report.py` does not define (its
nearest operation is `set_failed`, which only stores the return code).
Per the spec, "any FixtureError during setup is reported as a suite-level
error (return code 2)": the suite report is marked as a suite-level
error with the given return code. -/
def set_error (sr : SuiteReportState) (return_code : Int) : SuiteReportState :=
  { sr with suite_error := true, return_code := return_code }

/-- Modelled from the spec: `SuiteReport.set_success`, which
`TestSuiteExecutor.run` calls but `report.py` does not define; a suite
that ran to completion keeps its default (non-error, non-interrupted)
marks, so the call leaves the report unchanged. -/
def set_success (sr : SuiteReportState) : SuiteReportState := sr

end SuiteReportState

namespace TestSuiteExecutor

/-- Embeds `executor.py` `TestSuiteExecutor._setup_fixtures`: calls
`fixture.setup()` on every job's fixture, then `fixture.await_ready()` on
every job's fixture; the first failing call raises `FixtureError` and
aborts the phase. -/
def setup_fixtures (fixtures : List Fixture) : Option Exc :=
  if fixtures.all (fun f => f.setup_ok) then
    if fixtures.all (fun f => f.ready_ok) then none
    else some .fixtureError
  else some .fixtureError

/-- The outcome of everything `TestSuiteExecutor._run` does after
`_setup_fixtures` succeeds (the repeat loop with its queue, worker
threads and `finally` clause — real concurrency, not embedded here): the
final suite report state, whether `fixture.teardown` was attempted on any
fixture, and the exception propagating out of `_run` (`none` = it
returned normally). -/
def ExecutionLoop : Type :=
  SuiteReportState → SuiteReportState × Bool × Option Exc

/-- Embeds `executor.py` `TestSuiteExecutor.run` around `_run`: `_run` first
calls `_setup_fixtures()`, whose `FixtureError` propagates before the
`try/finally` of the repeat loop is entered — so no teardown can be
attempted — and is caught in `run` by `except errors.FixtureError`,
which marks the suite report via `set_error(return_code=2)`.  When setup
succeeds, the repeat loop runs and `run` classifies its outcome:
`UserInterrupt` → `set_interrupted(130)`, `IOError` →
`set_interrupted(74)`, `FixtureError` → `set_error(2)`, any other
exception → `set_error(2)`, normal return → `set_success()`.

The result is the final suite report state and whether any fixture
teardown was attempted. -/
def run (fixtures : List Fixture) (loop : ExecutionLoop)
    (suite_report : SuiteReportState) : SuiteReportState × Bool :=
  match setup_fixtures fixtures with
  | some _ =>
    -- FixtureError raised during setup: the repeat loop's try/finally was
    -- never entered, so no teardown is attempted.
    (suite_report.set_error 2, false)
  | none =>
    let (suite_report, teardown_attempted, exc) := loop suite_report
    match exc with
    | none => (suite_report.set_success, teardown_attempted)
    | some .userInterrupt => (suite_report.set_interrupted 130, teardown_attempted)
    | some .ioError => (suite_report.set_interrupted 74, teardown_attempted)
    | some _ => (suite_report.set_error 2, teardown_attempted)

end TestSuiteExecutor

/-! ### Sample values used to instantiate the theorems -/

/-- A test info that was started but never stopped: status and return
code unset. -/
def samplePendingInfo : TestInfo :=
  { test_id := "jstests/core/a.js", dynamic := false, start_time := some 3 }

/-- A report holding one pending entry. -/
def samplePendingReport : TestReportInfo :=
  { test_infos := [samplePendingInfo] }

/-- A completed successful test info. -/
def samplePassedInfo : TestInfo :=
  { test_id := "jstests/core/b.js", dynamic := false, start_time := some 1,
    end_time := some 4, status := some STATUS_SUCCESS,
    evergreen_status := some EVG_STATUS_SUCCESS, return_code := some 0 }

/-- A completed failed test info. -/
def sampleFailedInfo : TestInfo :=
  { test_id := "jstests/core/c.js", dynamic := false, start_time := some 2,
    end_time := some 6, status := some STATUS_FAIL,
    evergreen_status := some EVG_STATUS_FAIL, return_code := some 1 }

/-- A completed errored test info: its internal status is `"error"`
while its externally-reported status is `"fail"`. -/
def sampleErroredInfo : TestInfo :=
  { test_id := "jstests/core/d.js", dynamic := false, start_time := some 2,
    end_time := some 5, status := some STATUS_ERROR,
    evergreen_status := some EVG_STATUS_FAIL, return_code := some 2 }

/-- A report with one passed entry and consistent counters. -/
def samplePassedReport : TestReportInfo :=
  { test_infos := [samplePassedInfo], num_succeeded := 1 }

/-- A report with one passed and one failed entry and consistent
counters. -/
def samplePassedFailedReport : TestReportInfo :=
  { test_infos := [samplePassedInfo, sampleFailedInfo],
    num_succeeded := 1, num_failed := 1 }

/-- A report with one errored entry and consistent counters. -/
def sampleErroredReport : TestReportInfo :=
  { test_infos := [sampleErroredInfo], num_errored := 1 }

/-- A completed dynamic (hook-synthesized) test info; per the naming
convention its id contains a colon. -/
def sampleDynamicInfo : TestInfo :=
  { test_id := "foo:CleanEveryN", dynamic := true, start_time := some 4,
    end_time := some 6, status := some STATUS_FAIL,
    evergreen_status := some EVG_STATUS_FAIL, return_code := some 1 }

/-- A report with one static and one dynamic entry whose `num_dynamic`
counter is deliberately wrong (5 instead of 1): serialization does not
persist it, so `from_dict` recomputes it from the ids. -/
def sampleMiscountedReport : TestReportInfo :=
  { test_infos := [samplePassedInfo, sampleDynamicInfo],
    num_dynamic := 5, num_succeeded := 1, num_failed := 1 }

/-- The dictionary `as_dict` produces for `sampleMiscountedReport`. -/
def sampleMiscountedDict : ReportDict :=
  { results :=
      [{ test_file := "jstests/core/b.js", status := some EVG_STATUS_SUCCESS,
         exit_code := some 0, start := some 1, endv := some 4, elapsed := 3,
         url := none },
       { test_file := "foo:CleanEveryN", status := some EVG_STATUS_FAIL,
         exit_code := some 1, start := some 4, endv := some 6, elapsed := 2,
         url := none }]
    failures := 1 }

/-- The dictionary `as_dict` produces for `samplePassedReport`. -/
def samplePassedDict : ReportDict :=
  { results :=
      [{ test_file := "jstests/core/b.js", status := some EVG_STATUS_SUCCESS,
         exit_code := some 0, start := some 1, endv := some 4, elapsed := 3,
         url := none }]
    failures := 0 }

/-- A hook whose protocol methods all return normally. -/
def sampleHook1 : JobHook := { name := "CleanEveryN" }

/-- A second hook whose protocol methods all return normally. -/
def sampleHook2 : JobHook := { name := "CheckReplDBHash" }

/-- Suite options with fail-fast disabled. -/
def sampleOptions : SuiteOptions := { fail_fast := false }

/-- A fresh test case for a shell test that declares success. -/
def sampleTestCase : TestCase :=
  { test_kind := "js_test", test_name := "jstests/core/foo.js",
    run_test_outcome := .ok, run_test_return_code := some 0 }

/-- An empty per-job test report with failure status `"fail"`. -/
def sampleTestReport : TestReport := { failure_status := "fail" }

/-- A fixture whose `setup()` raises `FixtureError`. -/
def sampleBrokenFixture : Fixture := { setup_ok := false }

/-- A fixture whose liveness probe reports it is no longer running. -/
def sampleCrashedFixture : Fixture := { is_running := false }

/-- An execution loop that runs no test and returns normally without
attempting any teardown. -/
def sampleExecutionLoop : TestSuiteExecutor.ExecutionLoop :=
  fun sr => (sr, false, none)

/-- A test case whose `run_test` raises an unclassified exception. -/
def sampleErroringTestCase : TestCase :=
  { test_kind := "js_test", test_name := "jstests/core/bad.js",
    run_test_outcome := .otherExc, run_test_return_code := some 1 }

/-- A base test named exactly `"foo.js"`. -/
def sampleFooTest : TestCase :=
  { test_kind := "js_test", test_name := "foo.js",
    run_test_outcome := .ok, run_test_return_code := some 0 }

/-- The reusable test case owned by a hook. -/
def sampleHookTestCase : TestCase :=
  { test_kind := "hook_test", test_name := "clean_every_n",
    run_test_outcome := .ok, run_test_return_code := some 0 }

/-- A `TestCaseHook` whose `_should_run_after_test` always returns
true. -/
def sampleTestCaseHook : TestCaseHook :=
  { class_name := "CleanEveryN", description := "CleanEveryN hook",
    hook_test_case := sampleHookTestCase }

/-! ## Theorems -/

/-- Lemma: `_end_test_info` leaves the status of an already-completed entry
(status and return code both set) unchanged. -/
theorem endTestInfo_status_of_completed (ti : TestInfo) (t : Int)
    (h1 : ti.status ≠ none) (h2 : ti.return_code ≠ none) :
    (TestReportInfo.endTestInfo ti t).status = ti.status := by
  unfold TestReportInfo.endTestInfo
  have hcond : ¬(ti.status = none ∨ ti.return_code = none) := by
    rintro (h | h)
    · exact h1 h
    · exact h2 h
  rw [if_neg hcond]
  by_cases hend : ti.end_time = none
  · simp [hend]
  · simp [hend]

/-- Lemma: `end_report` preserves the number of entries with a given status when
every entry of the report is already completed. -/
theorem end_report_get_by_status_length
    (r : TestReportInfo) (t : Int) (s : String)
    (h : ∀ ti ∈ r.test_infos, ti.status ≠ none ∧ ti.return_code ≠ none) :
    ((r.end_report t).get_by_status s).length = (r.get_by_status s).length := by
  unfold TestReportInfo.end_report TestReportInfo.get_by_status
  simp only [List.filter_map, List.length_map]
  congr 1
  apply List.filter_congr
  intro ti hti
  simp [Function.comp, endTestInfo_status_of_completed ti t (h ti hti).1 (h ti hti).2]

/-- The combined report's `num_succeeded` is recomputed from a scan of
the concatenated (post-`end_report`) entries. -/
theorem combine_fst_num_succeeded (rs : List TestReportInfo) (t : Int) :
    (TestReportInfo.combine rs t).1.num_succeeded
      = (((rs.map (fun r => r.end_report t)).map TestReportInfo.test_infos).flatten.filter
          (fun ti => ti.status = some STATUS_SUCCESS)).length := rfl

/-- C6: for two reports with no pending entries and whose `num_succeeded`
counters match a scan of their entries, `combine [a, b]` is additive in
`num_succeeded`. -/
theorem claim_C6_combine_additive_num_succeeded
    (a b : TestReportInfo) (combining_time : Int)
    (hA : ∀ ti ∈ a.test_infos, ti.status ≠ none ∧ ti.return_code ≠ none)
    (hB : ∀ ti ∈ b.test_infos, ti.status ≠ none ∧ ti.return_code ≠ none)
    (hca : a.num_succeeded = (a.get_by_status STATUS_SUCCESS).length)
    (hcb : b.num_succeeded = (b.get_by_status STATUS_SUCCESS).length) :
    (TestReportInfo.combine [a, b] combining_time).1.num_succeeded
      = a.num_succeeded + b.num_succeeded := by
  rw [combine_fst_num_succeeded]
  simp only [List.map_cons, List.map_nil, List.flatten_cons, List.flatten_nil,
    List.append_nil, List.filter_append, List.length_append]
  have ha' := end_report_get_by_status_length a combining_time STATUS_SUCCESS hA
  have hb' := end_report_get_by_status_length b combining_time STATUS_SUCCESS hB
  unfold TestReportInfo.get_by_status at ha' hb' hca hcb
  rw [ha', hb', ← hca, ← hcb]

/-- Witness for C6 on two concrete completed reports. -/
theorem claim_C6_combine_additive_num_succeeded_witness :
    (TestReportInfo.combine [samplePassedReport, samplePassedFailedReport] 9).1.num_succeeded
      = samplePassedReport.num_succeeded + samplePassedFailedReport.num_succeeded :=
  claim_C6_combine_additive_num_succeeded samplePassedReport samplePassedFailedReport 9
    (by decide) (by decide) (by decide) (by decide)

/-- The `TestReportInfo.from_dict` loop appends one entry per serialized result. -/
theorem from_dict_foldl_test_infos (results : List ResultEntry) (acc : TestReportInfo) :
    (results.foldl TestReportInfo.from_dict_step acc).test_infos
      = acc.test_infos ++ results.map TestReportInfo.from_dict_entry := by
  induction results generalizing acc with
  | nil => simp
  | cons result rest ih =>
    simp only [List.foldl_cons, List.map_cons, ih, TestReportInfo.from_dict_step]
    simp

/-- The `TestReportInfo.from_dict` loop counts exactly the serialized results whose
`test_file` contains a colon. -/
theorem from_dict_foldl_num_dynamic (results : List ResultEntry) (acc : TestReportInfo) :
    (results.foldl TestReportInfo.from_dict_step acc).num_dynamic
      = acc.num_dynamic + results.countP (fun result => result.test_file.contains ':') := by
  induction results generalizing acc with
  | nil => simp
  | cons result rest ih =>
    simp only [List.foldl_cons, ih, TestReportInfo.from_dict_step, TestReportInfo.from_dict_entry, List.countP_cons]
    by_cases hc : result.test_file.contains ':'
    · simp [hc]; omega
    · simp [hc]

/-- Lemma: `_recompute_nums` only touches the four status counters. -/
theorem recompute_nums_test_infos (r : TestReportInfo) :
    r.recompute_nums.test_infos = r.test_infos := rfl

/-- Lemma: `_recompute_nums` leaves `num_dynamic` unchanged. -/
theorem recompute_nums_num_dynamic (r : TestReportInfo) :
    r.recompute_nums.num_dynamic = r.num_dynamic := rfl

/-- Each serialized result keeps the id, return code and timing fields of
its test info, and carries the evergreen status in its `status` column;
deserializing it therefore reproduces everything except the internal
status, which becomes the evergreen status. -/
theorem as_dict_results_entries (infos : List TestInfo) (results : List ResultEntry)
    (h : TestReportInfo.as_dict_results infos = some results) :
    List.Forall₂ (fun ti ti' =>
        ti'.test_id = ti.test_id ∧
        ti'.return_code = ti.return_code ∧
        ti'.start_time = ti.start_time ∧
        ti'.end_time = ti.end_time ∧
        ti'.status = ti.evergreen_status ∧
        ti'.evergreen_status = ti.evergreen_status)
      infos (results.map TestReportInfo.from_dict_entry) := by
  induction infos generalizing results with
  | nil =>
    simp only [TestReportInfo.as_dict_results, Option.some.injEq] at h
    subst h
    exact .nil
  | cons ti rest ih =>
    simp only [TestReportInfo.as_dict_results, Option.bind_eq_bind] at h
    cases hend : ti.end_time with
    | none => simp [TestReportInfo.as_dict_entry, hend] at h
    | some endv =>
      cases hstart : ti.start_time with
      | none => simp [TestReportInfo.as_dict_entry, hend, hstart] at h
      | some start =>
        cases hrest : TestReportInfo.as_dict_results rest with
        | none => simp [TestReportInfo.as_dict_entry, hend, hstart, hrest] at h
        | some rs =>
          simp [TestReportInfo.as_dict_entry, hend, hstart, hrest] at h
          subst h
          refine List.Forall₂.cons ?_ (ih rs hrest)
          simp [TestReportInfo.from_dict_entry, hend, hstart]

/-- The serialized results have exactly as many colon-carrying
`test_file`s as the report has colon-carrying test ids. -/
theorem as_dict_results_countP_colon (infos : List TestInfo) (results : List ResultEntry)
    (h : TestReportInfo.as_dict_results infos = some results) :
    results.countP (fun result => result.test_file.contains ':')
      = infos.countP (fun ti => ti.test_id.contains ':') := by
  induction infos generalizing results with
  | nil =>
    simp only [TestReportInfo.as_dict_results, Option.some.injEq] at h
    subst h
    simp
  | cons ti rest ih =>
    simp only [TestReportInfo.as_dict_results, Option.bind_eq_bind] at h
    cases hend : ti.end_time with
    | none => simp [TestReportInfo.as_dict_entry, hend] at h
    | some endv =>
      cases hstart : ti.start_time with
      | none => simp [TestReportInfo.as_dict_entry, hend, hstart] at h
      | some start =>
        cases hrest : TestReportInfo.as_dict_results rest with
        | none => simp [TestReportInfo.as_dict_entry, hend, hstart, hrest] at h
        | some rs =>
          simp [TestReportInfo.as_dict_entry, hend, hstart, hrest] at h
          subst h
          simp [List.countP_cons, ih rs hrest]

/-- C3 (amended): round-tripping a report through `as_dict`/`from_dict`
reproduces, for every entry, the identical test id, return code and
start/end times; the per-test status, however, comes back as the
serialized evergreen status (both `status` and `evergreen_status` of the
deserialized entry equal the original `evergreen_status`), so the
internal status is reproduced only when it already equalled the
evergreen status. -/
theorem claim_C3_roundtrip_amended (r : TestReportInfo) (d : ReportDict)
    (h : r.as_dict = some d) :
    List.Forall₂ (fun ti ti' =>
        ti'.test_id = ti.test_id ∧
        ti'.return_code = ti.return_code ∧
        ti'.start_time = ti.start_time ∧
        ti'.end_time = ti.end_time ∧
        ti'.status = ti.evergreen_status ∧
        ti'.evergreen_status = ti.evergreen_status)
      r.test_infos (TestReportInfo.from_dict d).test_infos := by
  cases hres : TestReportInfo.as_dict_results r.test_infos with
  | none => simp [TestReportInfo.as_dict, hres] at h
  | some results =>
    simp only [TestReportInfo.as_dict, hres, Option.bind_eq_bind, Option.some_bind,
      Option.pure_def, Option.some.injEq] at h
    have hdres : d.results = results := by rw [← h]
    unfold TestReportInfo.from_dict
    rw [recompute_nums_test_infos, from_dict_foldl_test_infos, hdres]
    simpa using as_dict_results_entries r.test_infos results hres

/-- Witness for C3 (amended) on a concrete passed report. -/
theorem claim_C3_roundtrip_amended_witness :
    List.Forall₂ (fun ti ti' =>
        ti'.test_id = ti.test_id ∧
        ti'.return_code = ti.return_code ∧
        ti'.start_time = ti.start_time ∧
        ti'.end_time = ti.end_time ∧
        ti'.status = ti.evergreen_status ∧
        ti'.evergreen_status = ti.evergreen_status)
      samplePassedReport.test_infos
      (TestReportInfo.from_dict samplePassedDict).test_infos :=
  claim_C3_roundtrip_amended samplePassedReport samplePassedDict (by decide)

/-- Counterexample to C3 as stated: a report whose only entry has
internal status `"error"` (and evergreen status `"fail"`) round-trips to
an entry whose status is `"fail"`, so the per-test status is not
reproduced identically. -/
theorem claim_C3_counterexample :
    (Option.map (fun d => (TestReportInfo.from_dict d).test_infos.map TestInfo.status)
        sampleErroredReport.as_dict)
      = some [some STATUS_FAIL] ∧
    sampleErroredReport.test_infos.map TestInfo.status = [some STATUS_ERROR] ∧
    STATUS_FAIL ≠ STATUS_ERROR := by
  refine ⟨?_, ?_, ?_⟩ <;> decide

/-- C10: `TestReportInfo.from_dict` infers the dynamic flag solely from the presence of
a colon in the test id, so for any serialized report the deserialized
`num_dynamic` equals the number of entries whose id contains a colon —
regardless of the `num_dynamic` of the report that was serialized. -/
theorem claim_C10_from_dict_num_dynamic (r : TestReportInfo) (d : ReportDict)
    (h : r.as_dict = some d) :
    (TestReportInfo.from_dict d).num_dynamic
      = (r.test_infos.filter (fun ti => ti.test_id.contains ':')).length := by
  cases hres : TestReportInfo.as_dict_results r.test_infos with
  | none => simp [TestReportInfo.as_dict, hres] at h
  | some results =>
    simp only [TestReportInfo.as_dict, hres, Option.bind_eq_bind, Option.some_bind,
      Option.pure_def, Option.some.injEq] at h
    have hdres : d.results = results := by rw [← h]
    unfold TestReportInfo.from_dict
    rw [recompute_nums_num_dynamic, from_dict_foldl_num_dynamic, hdres,
      as_dict_results_countP_colon r.test_infos results hres]
    simp [List.countP_eq_length_filter]

/-- Witness for C10: a report whose stored `num_dynamic` (5) is wrong
still deserializes with `num_dynamic` equal to its one colon-carrying
entry. -/
theorem claim_C10_from_dict_num_dynamic_witness :
    sampleMiscountedReport.as_dict = some sampleMiscountedDict ∧
    (TestReportInfo.from_dict sampleMiscountedDict).num_dynamic
      = (sampleMiscountedReport.test_infos.filter
          (fun ti => ti.test_id.contains ':')).length :=
  ⟨by decide,
   claim_C10_from_dict_num_dynamic sampleMiscountedReport sampleMiscountedDict (by decide)⟩

/-- C5: every `TestReportInfo` entry still pending (status or return code
unset) when `combine` is applied ends up, in the combined report, with
status `"timeout"`, evergreen status `"fail"`, return code `-2`, and — if
it had no end time — an end time equal to the combine instant. -/
theorem claim_C5_pending_becomes_timeout
    (report_infos : List TestReportInfo) (combining_time : Int)
    (r : TestReportInfo) (ti : TestInfo)
    (hr : r ∈ report_infos) (hti : ti ∈ r.test_infos)
    (hpending : ti.status = none ∨ ti.return_code = none) :
    TestReportInfo.endTestInfo ti combining_time ∈
      (TestReportInfo.combine report_infos combining_time).1.test_infos ∧
    (TestReportInfo.endTestInfo ti combining_time).status = some STATUS_TIMEOUT ∧
    (TestReportInfo.endTestInfo ti combining_time).evergreen_status = some EVG_STATUS_FAIL ∧
    (TestReportInfo.endTestInfo ti combining_time).return_code = some RETURN_CODE_TIMEOUT ∧
    (ti.end_time = none →
      (TestReportInfo.endTestInfo ti combining_time).end_time = some combining_time) := by
  have hprops :
      (TestReportInfo.endTestInfo ti combining_time).status = some STATUS_TIMEOUT ∧
      (TestReportInfo.endTestInfo ti combining_time).evergreen_status = some EVG_STATUS_FAIL ∧
      (TestReportInfo.endTestInfo ti combining_time).return_code = some RETURN_CODE_TIMEOUT ∧
      (ti.end_time = none →
        (TestReportInfo.endTestInfo ti combining_time).end_time = some combining_time) := by
    unfold TestReportInfo.endTestInfo
    rw [if_pos hpending]
    by_cases hend : ti.end_time = none
    · simp [hend]
    · simp [hend]
  refine ⟨?_, hprops⟩
  simp only [TestReportInfo.combine, List.mem_flatten, List.mem_map]
  exact ⟨(r.end_report combining_time).test_infos,
    ⟨r.end_report combining_time, ⟨r, hr, rfl⟩, rfl⟩,
    by
      simp only [TestReportInfo.end_report, List.mem_map]
      exact ⟨ti, hti, rfl⟩⟩

/-- Witness for C5 at a concrete pending entry. -/
theorem claim_C5_pending_becomes_timeout_witness :
    TestReportInfo.endTestInfo samplePendingInfo 7 ∈
      (TestReportInfo.combine [samplePendingReport] 7).1.test_infos ∧
    (TestReportInfo.endTestInfo samplePendingInfo 7).status = some STATUS_TIMEOUT ∧
    (TestReportInfo.endTestInfo samplePendingInfo 7).evergreen_status = some EVG_STATUS_FAIL ∧
    (TestReportInfo.endTestInfo samplePendingInfo 7).return_code = some RETURN_CODE_TIMEOUT ∧
    (samplePendingInfo.end_time = none →
      (TestReportInfo.endTestInfo samplePendingInfo 7).end_time = some 7) :=
  claim_C5_pending_becomes_timeout [samplePendingReport] 7 samplePendingReport
    samplePendingInfo (by decide) (by decide) (by decide)

/-- C9: `combine` mutates its inputs — the post-call state of the input
reports (the second component of the embedded `combine`) is exactly each
input with `end_report` applied at the combine instant, and any pending
entry of an input is thereby finalized as a timeout. -/
theorem claim_C9_combine_mutates_inputs
    (report_infos : List TestReportInfo) (combining_time : Int) :
    (TestReportInfo.combine report_infos combining_time).2 =
      report_infos.map (fun r => r.end_report combining_time) ∧
    ∀ r ∈ report_infos, ∀ ti ∈ r.test_infos,
      (ti.status = none ∨ ti.return_code = none) →
      TestReportInfo.endTestInfo ti combining_time ∈
        (r.end_report combining_time).test_infos ∧
      (TestReportInfo.endTestInfo ti combining_time).status = some STATUS_TIMEOUT := by
  refine ⟨rfl, ?_⟩
  intro r _hr ti hti hpending
  constructor
  · simp only [TestReportInfo.end_report, List.mem_map]
    exact ⟨ti, hti, rfl⟩
  · unfold TestReportInfo.endTestInfo
    rw [if_pos hpending]
    by_cases hend : ti.end_time = none
    · simp [hend]
    · simp [hend]

/-- Witness for C9 at a concrete input holding a pending entry. -/
theorem claim_C9_combine_mutates_inputs_witness :
    (TestReportInfo.combine [samplePendingReport] 7).2 =
      [samplePendingReport.end_report 7] ∧
    (TestReportInfo.endTestInfo samplePendingInfo 7).status = some STATUS_TIMEOUT :=
  ⟨by
    have h := (claim_C9_combine_mutates_inputs [samplePendingReport] 7).1
    simpa using h,
   ((claim_C9_combine_mutates_inputs [samplePendingReport] 7).2 samplePendingReport
     (by decide) samplePendingInfo (by decide) (by decide)).2⟩


/-- Finding by id in a reversed snoc list hits the appended entry when
its id matches (`get_by_id` searches backwards). -/
@[simp] theorem find_reverse_append (xs : List TestInfo) (ti : TestInfo) (test_id : String)
    (hid : ti.test_id = test_id) :
    (xs ++ [ti]).reverse.find? (fun t => t.test_id = test_id) = some ti := by
  simp [List.reverse_append, List.find?_cons, hid]

/-- Updating the last entry with a given id in a snoc list whose appended
entry carries that id rewrites exactly that entry. -/
@[simp] theorem updateLastById_append (xs : List TestInfo) (ti : TestInfo) (test_id : String)
    (f : TestInfo → TestInfo) (hid : ti.test_id = test_id) :
    TestReportInfo.updateLastById (xs ++ [ti]) test_id f = xs ++ [f ti] := by
  unfold TestReportInfo.updateLastById
  rw [List.reverse_append]
  simp [TestReportInfo.updateFirstById, hid]

/-- Reduction of `bind` on a successful `Except` computation. -/
@[simp] theorem except_ok_bind {ε α β : Type} (a : α) (f : α → Except ε β) :
    (Except.ok a : Except ε α) >>= f = f a := rfl

/-- Reduction of `bind` on a failed `Except` computation. -/
@[simp] theorem except_error_bind {ε α β : Type} (e : ε) (f : α → Except ε β) :
    (Except.error e : Except ε α) >>= f = Except.error e := rfl

/-- Reduction of `map` on a successful `Except` computation. -/
@[simp] theorem except_map_ok {ε α β : Type} (f : α → β) (a : α) :
    f <$> (Except.ok a : Except ε α) = Except.ok (f a) := rfl

/-- Evaluation of `TestCase.run` when `run_test` returns normally: the
report gains one completed passed entry and `run` returns normally. -/
theorem run_spec_ok (test : TestCase) (report : TestReport) (url : Option String)
    (t1 t2 : Int) (h : test.run_test_outcome = .ok) :
    TestCase.run test report url t1 t2 = .ok
      ({ test with return_code := test.run_test_return_code },
       { report with info :=
           { report.info with
             test_infos := report.info.test_infos ++
               [{ test_id := test.test_name, dynamic := test.dynamic,
                  start_time := some t1, end_time := some t2,
                  status := some STATUS_SUCCESS,
                  evergreen_status := some EVG_STATUS_SUCCESS,
                  return_code := test.run_test_return_code,
                  url_endpoint := url }]
             num_dynamic := report.info.num_dynamic + (if test.dynamic then 1 else 0)
             num_succeeded := report.info.num_succeeded + 1 } },
       none) := by
  simp [TestCase.run, h, TestCase.id, TestReport.record_test_start,
    TestReportInfo.record_test_start, TestReport.record_test_success,
    TestReportInfo.record_test_success, TestReport.record_test_end,
    TestReportInfo.record_test_end, TestReportInfo.get_by_id?]

/-- Evaluation of `TestCase.run` when `run_test` raises `TestFailure`:
the report gains one completed failed entry, the exception is stored in
the test case's exception field, and `run` returns normally. -/
theorem run_spec_testFailure (test : TestCase) (report : TestReport) (url : Option String)
    (t1 t2 : Int) (h : test.run_test_outcome = .testFailure) :
    TestCase.run test report url t1 t2 = .ok
      ({ test with return_code := test.run_test_return_code,
                   exception := some .testFailure },
       { report with info :=
           { report.info with
             test_infos := report.info.test_infos ++
               [{ test_id := test.test_name, dynamic := test.dynamic,
                  start_time := some t1, end_time := some t2,
                  status := some STATUS_FAIL,
                  evergreen_status :=
                    some (if test.dynamic then EVG_STATUS_FAIL else report.failure_status),
                  return_code := test.run_test_return_code,
                  url_endpoint := url }]
             num_dynamic := report.info.num_dynamic + (if test.dynamic then 1 else 0)
             num_failed := report.info.num_failed + 1 } },
       none) := by
  simp [TestCase.run, h, TestCase.id, TestReport.record_test_start,
    TestReportInfo.record_test_start, TestReport.record_test_failure,
    TestReportInfo.record_test_failure, TestReport.record_test_end,
    TestReportInfo.record_test_end, TestReportInfo.get_by_id?]

/-- Evaluation of `TestCase.run` when `run_test` raises
`KeyboardInterrupt`: no outcome is recorded, the stop is still recorded
by the `finally`, and the exception is re-raised. -/
theorem run_spec_keyboardInterrupt (test : TestCase) (report : TestReport)
    (url : Option String) (t1 t2 : Int)
    (h : test.run_test_outcome = .keyboardInterrupt) :
    TestCase.run test report url t1 t2 = .ok
      ({ test with return_code := test.run_test_return_code },
       { report with info :=
           { report.info with
             test_infos := report.info.test_infos ++
               [{ test_id := test.test_name, dynamic := test.dynamic,
                  start_time := some t1, end_time := some t2,
                  url_endpoint := url }]
             num_dynamic := report.info.num_dynamic + (if test.dynamic then 1 else 0) } },
       some .keyboardInterrupt) := by
  simp [TestCase.run, h, TestCase.id, TestReport.record_test_start,
    TestReportInfo.record_test_start, TestReport.record_test_end,
    TestReportInfo.record_test_end, TestReportInfo.get_by_id?]

/-- Evaluation of `TestCase.run` when `run_test` raises any other
(non-`KeyboardInterrupt`) exception: the report gains one completed
errored entry, the exception is stored in the test case's exception
field, and `run` returns normally — it is not re-raised. -/
theorem run_spec_otherExc (test : TestCase) (report : TestReport) (url : Option String)
    (t1 t2 : Int) (h : test.run_test_outcome = .otherExc) :
    TestCase.run test report url t1 t2 = .ok
      ({ test with return_code := test.run_test_return_code,
                   exception := some .otherExc },
       { report with info :=
           { report.info with
             test_infos := report.info.test_infos ++
               [{ test_id := test.test_name, dynamic := test.dynamic,
                  start_time := some t1, end_time := some t2,
                  status := some STATUS_ERROR,
                  evergreen_status := some EVG_STATUS_FAIL,
                  return_code := test.run_test_return_code,
                  url_endpoint := url }]
             num_dynamic := report.info.num_dynamic + (if test.dynamic then 1 else 0)
             num_errored := report.info.num_errored + 1 } },
       none) := by
  simp [TestCase.run, h, TestCase.id, TestReport.record_test_start,
    TestReportInfo.record_test_start, TestReport.record_test_error,
    TestReportInfo.record_test_error, TestReport.record_test_end,
    TestReportInfo.record_test_end, TestReportInfo.get_by_id?]

/-- Lemma: `TestCase.run` always returns (its internal report operations cannot
fail, since the entry they target was just appended): whatever the
`run_test` outcome, the report gains exactly one entry carrying the
test's id, its dynamic flag, the start instant and the stop instant, and
the test case's name is unchanged. -/
theorem run_spec_exists (test : TestCase) (report : TestReport) (url : Option String)
    (t1 t2 : Int) :
    ∃ test' report' raised ti,
      TestCase.run test report url t1 t2 = .ok (test', report', raised) ∧
      test'.test_name = test.test_name ∧
      report'.info.test_infos = report.info.test_infos ++ [ti] ∧
      ti.test_id = test.test_name ∧ ti.dynamic = test.dynamic ∧
      ti.start_time = some t1 ∧ ti.end_time = some t2 := by
  cases h : test.run_test_outcome with
  | ok => exact ⟨_, _, _, _, run_spec_ok test report url t1 t2 h, rfl, rfl, rfl, rfl, rfl, rfl⟩
  | testFailure =>
    exact ⟨_, _, _, _, run_spec_testFailure test report url t1 t2 h, rfl, rfl, rfl, rfl, rfl, rfl⟩
  | keyboardInterrupt =>
    exact ⟨_, _, _, _, run_spec_keyboardInterrupt test report url t1 t2 h, rfl, rfl, rfl, rfl,
      rfl, rfl⟩
  | otherExc =>
    exact ⟨_, _, _, _, run_spec_otherExc test report url t1 t2 h, rfl, rfl, rfl, rfl, rfl, rfl⟩

/-- C2 (amended): every invocation of `TestCase.run` records the start
and — in a `finally` — the stop of the test in the report (the single
entry added carries the start and stop instants); a `TestFailure` from
`run_test` records a fail outcome and is swallowed into the test case's
exception field (`run` returns normally); any other
non-`KeyboardInterrupt` exception records an error outcome and is
likewise swallowed into the exception field — it is **not** re-raised;
`KeyboardInterrupt` alone is re-raised (after the stop is recorded). -/
theorem claim_C2_run_protocol_amended
    (test : TestCase) (report : TestReport) (url : Option String) (t1 t2 : Int) :
    ∃ test' report' raised ti,
      TestCase.run test report url t1 t2 = .ok (test', report', raised) ∧
      report'.info.test_infos = report.info.test_infos ++ [ti] ∧
      ti.test_id = test.id ∧
      ti.start_time = some t1 ∧
      ti.end_time = some t2 ∧
      (test.run_test_outcome = .ok →
        ti.status = some STATUS_SUCCESS ∧ raised = none) ∧
      (test.run_test_outcome = .testFailure →
        ti.status = some STATUS_FAIL ∧ test'.exception = some .testFailure ∧
        raised = none) ∧
      (test.run_test_outcome = .otherExc →
        ti.status = some STATUS_ERROR ∧ test'.exception = some .otherExc ∧
        raised = none) ∧
      (test.run_test_outcome = .keyboardInterrupt →
        raised = some .keyboardInterrupt) := by
  cases h : test.run_test_outcome with
  | ok =>
    refine ⟨_, _, _, _, run_spec_ok test report url t1 t2 h, rfl, rfl, rfl, rfl,
      fun _ => ⟨rfl, rfl⟩, fun hc => ?_, fun hc => ?_, fun hc => ?_⟩ <;> cases hc
  | testFailure =>
    refine ⟨_, _, _, _, run_spec_testFailure test report url t1 t2 h, rfl, rfl, rfl, rfl,
      fun hc => ?_, fun _ => ⟨rfl, rfl, rfl⟩, fun hc => ?_, fun hc => ?_⟩ <;> cases hc
  | otherExc =>
    refine ⟨_, _, _, _, run_spec_otherExc test report url t1 t2 h, rfl, rfl, rfl, rfl,
      fun hc => ?_, fun hc => ?_, fun _ => ⟨rfl, rfl, rfl⟩, fun hc => ?_⟩ <;> cases hc
  | keyboardInterrupt =>
    refine ⟨_, _, _, _, run_spec_keyboardInterrupt test report url t1 t2 h, rfl, rfl, rfl, rfl,
      fun hc => ?_, fun hc => ?_, fun hc => ?_, fun _ => rfl⟩ <;> cases hc

/-- Witness for C2 (amended) at a concrete test case and report. -/
theorem claim_C2_run_protocol_amended_witness :
    ∃ test' report' raised ti,
      TestCase.run sampleErroringTestCase sampleTestReport none 0 1
        = .ok (test', report', raised) ∧
      report'.info.test_infos = sampleTestReport.info.test_infos ++ [ti] ∧
      ti.test_id = sampleErroringTestCase.id ∧
      ti.start_time = some 0 ∧
      ti.end_time = some 1 ∧
      (sampleErroringTestCase.run_test_outcome = .ok →
        ti.status = some STATUS_SUCCESS ∧ raised = none) ∧
      (sampleErroringTestCase.run_test_outcome = .testFailure →
        ti.status = some STATUS_FAIL ∧ test'.exception = some .testFailure ∧
        raised = none) ∧
      (sampleErroringTestCase.run_test_outcome = .otherExc →
        ti.status = some STATUS_ERROR ∧ test'.exception = some .otherExc ∧
        raised = none) ∧
      (sampleErroringTestCase.run_test_outcome = .keyboardInterrupt →
        raised = some .keyboardInterrupt) :=
  claim_C2_run_protocol_amended sampleErroringTestCase sampleTestReport none 0 1

/-- Counterexample to C2 as stated: when `run_test` raises an
unclassified (non-`KeyboardInterrupt`) exception, `run` records an error
outcome but returns normally — the exception is stored in the test
case's exception field instead of being re-raised. -/
theorem claim_C2_counterexample :
    (TestCase.run sampleErroringTestCase sampleTestReport none 0 1).map
        (fun r => (r.2.2, r.1.exception, r.2.1.info.test_infos.map TestInfo.status))
      = .ok (none, some .otherExc, [some STATUS_ERROR]) := rfl

/-- C4 (amended): a `TestCaseHook` whose `_should_run_after_test` returns
true synthesizes, in `after_test`, a dynamic test whose id is
`"<short name of the base test>:<hook class name>"` — where the short
name is the basename of the test *without its file extension* — and runs
it, adding exactly one entry with that id to the report. -/
theorem claim_C4_amended
    (hook : TestCaseHook) (test : TestCase) (report : TestReport)
    (url : Option String) (t1 t2 : Int)
    (hrun : hook.should_run_after_test = true) :
    ∃ hook' report' raised ti,
      TestCaseHook.after_test hook test report url t1 t2 = .ok (hook', report', raised) ∧
      hook'.hook_test_case.test_name = test.short_name ++ ":" ++ hook.class_name ∧
      report'.info.test_infos = report.info.test_infos ++ [ti] ∧
      ti.test_id = test.short_name ++ ":" ++ hook.class_name ∧
      ti.start_time = some t1 ∧ ti.end_time = some t2 := by
  obtain ⟨t', r', raised, ti, hrun_eq, hname, hinfos, hid, _, hstart, hend⟩ :=
    run_spec_exists
      { hook.hook_test_case.reset with
        test_name := test.short_name ++ ":" ++ hook.class_name } report url t1 t2
  have hname' : t'.test_name = test.short_name ++ ":" ++ hook.class_name := hname
  simp only [TestCaseHook.after_test, hrun, Bool.not_true, Bool.false_eq_true, if_false,
    hrun_eq, except_ok_bind]
  cases raised with
  | some e =>
    exact ⟨{ hook with hook_test_case := t', should_run_after_test := true }, r', some e,
      ti, rfl, hname', hinfos, hid, hstart, hend⟩
  | none =>
    by_cases hrc : t'.return_code = some 0
    · refine ⟨{ hook with hook_test_case := t', should_run_after_test := true }, r', none,
        ti, ?_, hname', hinfos, hid, hstart, hend⟩
      rw [if_neg (by simp [hrc])]
      exact rfl
    · refine ⟨{ hook with hook_test_case := t', should_run_after_test := true }, r',
        some .stopExecution, ti, ?_, hname', hinfos, hid, hstart, hend⟩
      rw [if_pos hrc]
      exact rfl

/-- Witness for C4 (amended) on a concrete hook and base test. -/
theorem claim_C4_amended_witness :
    ∃ hook' report' raised ti,
      TestCaseHook.after_test sampleTestCaseHook sampleFooTest sampleTestReport none 0 1
        = .ok (hook', report', raised) ∧
      hook'.hook_test_case.test_name
        = sampleFooTest.short_name ++ ":" ++ sampleTestCaseHook.class_name ∧
      report'.info.test_infos = sampleTestReport.info.test_infos ++ [ti] ∧
      ti.test_id = sampleFooTest.short_name ++ ":" ++ sampleTestCaseHook.class_name ∧
      ti.start_time = some 0 ∧ ti.end_time = some 1 :=
  claim_C4_amended sampleTestCaseHook sampleFooTest sampleTestReport none 0 1 rfl

/-- Counterexample to C4 as stated: for a base test named `"foo.js"` and
a hook class named `CleanEveryN`, the synthesized id is
`"foo:CleanEveryN"` (`short_name` strips the `.js` extension), not
`"foo.js:CleanEveryN"`. -/
theorem claim_C4_counterexample :
    (TestCaseHook.after_test sampleTestCaseHook sampleFooTest sampleTestReport
        none 0 1).toOption.map (fun r => r.1.hook_test_case.test_name)
      = some "foo:CleanEveryN" ∧
    "foo:CleanEveryN" ≠ "foo.js:CleanEveryN" := by
  exact ⟨by decide, by decide⟩

/-- C1 (amended): when the fixture's liveness probe is false after a test
and the job has not already stopped at the fail-fast check (the test
declared success, or fail-fast is off — the fail-fast check precedes the
liveness check and would raise `StopExecution` first), `_execute_test`
forces the test's recorded outcome to status `"fail"` (via
`setFailure`, i.e. `update_test_failure`) with the fixed crash return
code 2, and raises `StopExecution` — for either fail-fast setting. -/
theorem claim_C1_amended
    (fail_fast : Bool) (failure_status test_kind test_name : String)
    (url : Option String) (rc : Option Int) (o : RunTestOutcome) (t1 t2 : Int)
    (fixture : Fixture)
    (hfx : fixture.is_running = false)
    (ho : o = .ok ∨ (fail_fast = false ∧ o ≠ .keyboardInterrupt)) :
    ∃ res : Job.ExecuteTestResult,
      Job.execute_test fixture [] { fail_fast := fail_fast }
        { test_kind := test_kind, test_name := test_name,
          run_test_outcome := o, run_test_return_code := rc }
        { failure_status := failure_status } url t1 t2 = .ok res ∧
      res.raised = some .stopExecution ∧
      ∃ ti, res.report.info.test_infos = [ti] ∧
        ti.test_id = test_name ∧
        ti.status = some STATUS_FAIL ∧
        ti.return_code = some 2 := by
  have hko : o ≠ .keyboardInterrupt := by
    rcases ho with ho | ⟨_, hko⟩
    · rw [ho]; intro hc; cases hc
    · exact hko
  have hpass : o = .ok ∨ fail_fast = false := by
    rcases ho with ho | ⟨hff, _⟩
    · exact Or.inl ho
    · exact Or.inr hff
  cases o with
    | keyboardInterrupt => exact absurd rfl hko
    | ok =>
      simp [Job.execute_test, TestCase.configure, Job.run_hooks_before_tests, fireHooks,
        TestCase.run, TestCase.id, TestReport.record_test_start,
        TestReportInfo.record_test_start, TestReport.record_test_success,
        TestReportInfo.record_test_success, TestReport.record_test_end,
        TestReportInfo.record_test_end, TestReportInfo.get_by_id?,
        TestReport.was_successful, TestReportInfo.was_successful, hfx,
        TestReport.update_test_failure, TestReportInfo.update_test_failure,
        TestReportInfo.recompute_nums, TestReportInfo.get_by_status,
        TestReportInfo.updateLastById, TestReportInfo.updateFirstById, List.find?,
        Job.run_hooks_after_tests, STATUS_SUCCESS, STATUS_FAIL, STATUS_ERROR,
        STATUS_TIMEOUT, EVG_STATUS_SUCCESS, EVG_STATUS_FAIL]
    | testFailure =>
      rcases hpass with hpass | hff
      · cases hpass
      · subst hff
        simp [Job.execute_test, TestCase.configure, Job.run_hooks_before_tests, fireHooks,
          TestCase.run, TestCase.id, TestReport.record_test_start,
          TestReportInfo.record_test_start, TestReport.record_test_failure,
          TestReportInfo.record_test_failure, TestReport.record_test_end,
          TestReportInfo.record_test_end, TestReportInfo.get_by_id?,
          TestReport.was_successful, TestReportInfo.was_successful, hfx,
          TestReport.update_test_failure, TestReportInfo.update_test_failure,
          TestReportInfo.recompute_nums, TestReportInfo.get_by_status,
          TestReportInfo.updateLastById, TestReportInfo.updateFirstById, List.find?,
          Job.run_hooks_after_tests, STATUS_SUCCESS, STATUS_FAIL, STATUS_ERROR,
          STATUS_TIMEOUT, EVG_STATUS_SUCCESS, EVG_STATUS_FAIL]
    | otherExc =>
      rcases hpass with hpass | hff
      · cases hpass
      · subst hff
        simp [Job.execute_test, TestCase.configure, Job.run_hooks_before_tests, fireHooks,
          TestCase.run, TestCase.id, TestReport.record_test_start,
          TestReportInfo.record_test_start, TestReport.record_test_error,
          TestReportInfo.record_test_error, TestReport.record_test_end,
          TestReportInfo.record_test_end, TestReportInfo.get_by_id?,
          TestReport.was_successful, TestReportInfo.was_successful, hfx,
          TestReport.update_test_failure, TestReportInfo.update_test_failure,
          TestReportInfo.recompute_nums, TestReportInfo.get_by_status,
          TestReportInfo.updateLastById, TestReportInfo.updateFirstById, List.find?,
          Job.run_hooks_after_tests, STATUS_SUCCESS, STATUS_FAIL, STATUS_ERROR,
          STATUS_TIMEOUT, EVG_STATUS_SUCCESS, EVG_STATUS_FAIL]

/-- Witness for C1 (amended): fail-fast on, successful test, crashed
fixture. -/
theorem claim_C1_amended_witness :
    ∃ res : Job.ExecuteTestResult,
      Job.execute_test sampleCrashedFixture [] { fail_fast := true }
        { test_kind := "js_test", test_name := "jstests/core/foo.js",
          run_test_outcome := .ok, run_test_return_code := some 0 }
        { failure_status := "fail" } none 0 1 = .ok res ∧
      res.raised = some .stopExecution ∧
      ∃ ti, res.report.info.test_infos = [ti] ∧
        ti.test_id = "jstests/core/foo.js" ∧
        ti.status = some STATUS_FAIL ∧
        ti.return_code = some 2 :=
  claim_C1_amended true "fail" "js_test" "jstests/core/foo.js" none (some 0) .ok 0 1
    sampleCrashedFixture rfl (Or.inl rfl)

/-- Counterexample to C1 as stated: with a crashed fixture after a
successful test, the forced outcome's status is `"fail"` (the code calls
`setFailure`), not `"error"`. -/
theorem claim_C1_counterexample :
    (Job.execute_test sampleCrashedFixture [] sampleOptions sampleTestCase
        sampleTestReport none 0 1).toOption.map
        (fun res => (res.raised, res.report.info.test_infos.map TestInfo.status))
      = some (some .stopExecution, [some STATUS_FAIL]) ∧
    STATUS_FAIL ≠ STATUS_ERROR := by
  exact ⟨by decide, by decide⟩

/-- C7: with hooks `[H1, H2]` whose `before_test` and `after_test` all
return normally, the job fires H1's `before_test` then H2's, and H1's
`after_test` then H2's — the configured order is preserved at both call
points. -/
theorem claim_C7_hook_order
    (h1 h2 : JobHook) (suite_options : SuiteOptions) (test : TestCase)
    (report : TestReport) (t1 t2 : Int)
    (hb1 : h1.before_outcome = none) (hb2 : h2.before_outcome = none)
    (ha1 : h1.after_outcome = none) (ha2 : h2.after_outcome = none) :
    Job.run_hooks_before_tests [h1, h2] suite_options test report t1 t2
      = .ok (test, report, [h1.name, h2.name], none) ∧
    Job.run_hooks_after_tests [h1, h2] suite_options test report
      = .ok (report, [h1.name, h2.name], none) := by
  constructor
  · simp [Job.run_hooks_before_tests, fireHooks, hb1, hb2, pure, Except.pure]
  · simp [Job.run_hooks_after_tests, fireHooks, ha1, ha2, pure, Except.pure]

/-- Witness for C7 with two concrete well-behaved hooks. -/
theorem claim_C7_hook_order_witness :
    Job.run_hooks_before_tests [sampleHook1, sampleHook2] sampleOptions
        sampleTestCase sampleTestReport 0 1
      = .ok (sampleTestCase, sampleTestReport,
             [sampleHook1.name, sampleHook2.name], none) ∧
    Job.run_hooks_after_tests [sampleHook1, sampleHook2] sampleOptions
        sampleTestCase sampleTestReport
      = .ok (sampleTestReport, [sampleHook1.name, sampleHook2.name], none) :=
  claim_C7_hook_order sampleHook1 sampleHook2 sampleOptions sampleTestCase
    sampleTestReport 0 1 rfl rfl rfl rfl

/-- C8: a `FixtureError` raised during the executor's fixture setup phase
(either the `setup()` loop or the `await_ready()` loop, before any test
runs) marks the suite report as a suite-level error with return code 2,
and no fixture teardown is attempted — whatever the execution loop would
have done. -/
theorem claim_C8_fixture_error_during_setup
    (fixtures : List Fixture) (loop : TestSuiteExecutor.ExecutionLoop)
    (suite_report : SuiteReportState) (f : Fixture) (hf : f ∈ fixtures)
    (hbad : f.setup_ok = false ∨ f.ready_ok = false) :
    TestSuiteExecutor.run fixtures loop suite_report
      = (suite_report.set_error 2, false) := by
  have hsf : TestSuiteExecutor.setup_fixtures fixtures = some .fixtureError := by
    unfold TestSuiteExecutor.setup_fixtures
    by_cases hs : fixtures.all (fun fx => fx.setup_ok) = true
    · have hr : fixtures.all (fun fx => fx.ready_ok) = false := by
        rcases hbad with hb | hb
        · exact absurd (List.all_eq_true.mp hs f hf) (by simp [hb])
        · rw [Bool.eq_false_iff]
          intro hall
          exact absurd (List.all_eq_true.mp hall f hf) (by simp [hb])
      simp [hs, hr]
    · rw [Bool.not_eq_true] at hs
      simp [hs]
  simp [TestSuiteExecutor.run, hsf]

/-- Witness for C8 with one fixture whose `setup()` fails. -/
theorem claim_C8_fixture_error_during_setup_witness :
    TestSuiteExecutor.run [sampleBrokenFixture] sampleExecutionLoop {}
      = (SuiteReportState.set_error {} 2, false) :=
  claim_C8_fixture_error_during_setup [sampleBrokenFixture] sampleExecutionLoop {}
    sampleBrokenFixture (by decide) (Or.inl rfl)


end Resmoke
